import Mathlib

set_option maxRecDepth 100000

/-
  Shallow embedding of the DS1302 real-time-clock driver
  (repository a-d-v-e-n-t-u-r-o-u-s/ds1302, variant with 12h/24h support:
  implementation file src/unnamed/part_002 together with its header
  src/unnamed/part_000).

  Machine bytes (uint8_t) are modelled as Nat; an explicit % 256 appears
  exactly where the C source performs a narrowing cast.  The fatal
  assertion capability (the ASSERT macro, an external collaborator of the
  module) is modelled by returning none: a function whose C original would
  hit ASSERT(false) yields none instead of a value.
-/

/- Field selectors, from the header (src/unnamed/part_000). -/

def DS1302_SECONDS : Nat := 0

def DS1302_MINUTES : Nat := 1

def DS1302_HOURS_24H : Nat := 2

def DS1302_HOURS_12H : Nat := 3

def DS1302_WEEKDAY : Nat := 4

def DS1302_DATE : Nat := 5

def DS1302_MONTH : Nat := 6

def DS1302_YEAR : Nat := 7

def DS1302_FORMAT : Nat := 8

def DS1302_AM_PM : Nat := 9

/- Register command bytes. -/

def READ_SECONDS : Nat := 0x81

def WRITE_SECONDS : Nat := 0x80

def READ_MINUTES : Nat := 0x83

def WRITE_MINUTES : Nat := 0x82

def READ_HOURS : Nat := 0x85

def WRITE_HOURS : Nat := 0x84

def READ_DATE : Nat := 0x87

def WRITE_DATE : Nat := 0x86

def READ_MONTH : Nat := 0x89

def WRITE_MONTH : Nat := 0x88

def READ_WEEKDAY : Nat := 0x8B

def WRITE_WEEKDAY : Nat := 0x8A

def READ_YEAR : Nat := 0x8D

def WRITE_YEAR : Nat := 0x8C

def READ_WP : Nat := 0x8F

def WRITE_WP : Nat := 0x8E

/- Masks, shifts and factors. -/

def WRITE_PROTECTION_MASK : Nat := 0x80

def HOURS_UNIT_MASK : Nat := 0x1F

def WEEKDAY_UNIT_MASK : Nat := 0x07

def OTHER_UNIT_MASK : Nat := 0x0F

def SEC_MIN_TENS_MASK : Nat := 0x70

def HOURS_24H_TENS_MASK : Nat := 0x30

def HOURS_12H_TENS_MASK : Nat := 0x10

def DATE_TENS_MASK : Nat := 0x30

def MONTH_TENS_MASK : Nat := 0x10

def YEAR_TENS_MASK : Nat := 0xF0

def AM_PM_MASK : Nat := 0x20

def TENS_SHIFT : Nat := 4

def FORMAT_SHIFT : Nat := 7

def AM_PM_SHIFT : Nat := 5

def UNIT_FACTOR : Nat := 1

def TENS_FACTOR : Nat := 10

def CLK_DELAY : Nat := 2

def MSB_SHIFT : Nat := 7

def CHAR_BIT : Nat := 8

/- Month and day constants. -/

def JANUARY : Nat := 1

def FEBRUARY : Nat := 2

def MARCH : Nat := 3

def APRIL : Nat := 4

def MAY : Nat := 5

def JUNE : Nat := 6

def JULY : Nat := 7

def AUGUST : Nat := 8

def SEPTEMBER : Nat := 9

def OCTOBER : Nat := 10

def NOVEMBER : Nat := 11

def DECEMBER : Nat := 12

def DAYS_28 : Nat := 28

def DAYS_29 : Nat := 29

def DAYS_30 : Nat := 30

def DAYS_31 : Nat := 31

def CENTURY : Nat := 100

/-- Range record, mirroring DS1302_range_t. -/
structure DS1302_range_t where
  min : Nat
  max : Nat
deriving DecidableEq

/-- Static range table, mirroring the 8-entry ranges array entry by
entry; indices outside the array give none. -/
def ranges (type : Nat) : Option DS1302_range_t :=
  if type = DS1302_SECONDS then some ⟨0, 59⟩
  else if type = DS1302_MINUTES then some ⟨0, 59⟩
  else if type = DS1302_HOURS_24H then some ⟨0, 23⟩
  else if type = DS1302_HOURS_12H then some ⟨1, 12⟩
  else if type = DS1302_WEEKDAY then some ⟨1, 7⟩
  else if type = DS1302_DATE then some ⟨1, 31⟩
  else if type = DS1302_MONTH then some ⟨1, 12⟩
  else if type = DS1302_YEAR then some ⟨0, 99⟩
  else none

/-- Leap-year test on the stored two-digit year, mirroring is_leap_year. -/
def is_leap_year (year : Nat) : Bool :=
  if year % 4 ≠ 0 then false
  else if year % CENTURY ≠ 0 then true
  else if year % (4 * CENTURY) ≠ 0 then false
  else true

/-- Validity switch for range lookups, mirroring is_get_range_type_valid. -/
def is_get_range_type_valid (type : Nat) : Bool :=
  if type = DS1302_SECONDS ∨ type = DS1302_MINUTES ∨
     type = DS1302_HOURS_24H ∨ type = DS1302_HOURS_12H ∨
     type = DS1302_WEEKDAY ∨ type = DS1302_DATE ∨
     type = DS1302_MONTH ∨ type = DS1302_YEAR
  then true else false

/-- Encoder, mirroring get_value_to_store; the default branch of the C
switch hits ASSERT(false), modelled as none.  The % 256 in the FORMAT and
AM_PM branches mirrors the explicit (uint8_t) cast in the source. -/
def get_value_to_store (entry val : Nat) : Option Nat :=
  if entry = DS1302_SECONDS ∨ entry = DS1302_MINUTES then
    some ((((val / TENS_FACTOR) <<< TENS_SHIFT) &&& SEC_MIN_TENS_MASK) |||
          (val % TENS_FACTOR))
  else if entry = DS1302_HOURS_24H then
    some ((((val / TENS_FACTOR) <<< TENS_SHIFT) &&& HOURS_24H_TENS_MASK) |||
          (val % TENS_FACTOR))
  else if entry = DS1302_HOURS_12H then
    some ((((val / TENS_FACTOR) <<< TENS_SHIFT) &&& HOURS_12H_TENS_MASK) |||
          (val % TENS_FACTOR))
  else if entry = DS1302_AM_PM then
    some ((val <<< AM_PM_SHIFT) % 256)
  else if entry = DS1302_FORMAT then
    some ((val <<< FORMAT_SHIFT) % 256)
  else if entry = DS1302_WEEKDAY then
    some (val &&& WEEKDAY_UNIT_MASK)
  else if entry = DS1302_DATE then
    some ((((val / TENS_FACTOR) <<< TENS_SHIFT) &&& DATE_TENS_MASK) |||
          (val % TENS_FACTOR))
  else if entry = DS1302_MONTH then
    some ((((val / TENS_FACTOR) <<< TENS_SHIFT) &&& MONTH_TENS_MASK) |||
          (val % TENS_FACTOR))
  else if entry = DS1302_YEAR then
    some ((((val / TENS_FACTOR) <<< TENS_SHIFT) &&& YEAR_TENS_MASK) |||
          (val % TENS_FACTOR))
  else none

/-- Decoder, mirroring get_value_to_load; the default branch of the C
switch hits ASSERT(false), modelled as none. -/
def get_value_to_load (entry val : Nat) : Option Nat :=
  if entry = DS1302_SECONDS ∨ entry = DS1302_MINUTES then
    some ((val &&& OTHER_UNIT_MASK) * UNIT_FACTOR +
          ((val &&& SEC_MIN_TENS_MASK) >>> TENS_SHIFT) * TENS_FACTOR)
  else if entry = DS1302_FORMAT then
    some (val >>> FORMAT_SHIFT)
  else if entry = DS1302_AM_PM then
    some ((val &&& AM_PM_MASK) >>> AM_PM_SHIFT)
  else if entry = DS1302_HOURS_24H then
    some ((val &&& OTHER_UNIT_MASK) * UNIT_FACTOR +
          ((val &&& HOURS_24H_TENS_MASK) >>> TENS_SHIFT) * TENS_FACTOR)
  else if entry = DS1302_HOURS_12H then
    some ((val &&& OTHER_UNIT_MASK) * UNIT_FACTOR +
          ((val &&& HOURS_12H_TENS_MASK) >>> TENS_SHIFT) * TENS_FACTOR)
  else if entry = DS1302_WEEKDAY then
    some ((val &&& WEEKDAY_UNIT_MASK) * UNIT_FACTOR)
  else if entry = DS1302_DATE then
    some ((val &&& OTHER_UNIT_MASK) * UNIT_FACTOR +
          ((val &&& DATE_TENS_MASK) >>> TENS_SHIFT) * TENS_FACTOR)
  else if entry = DS1302_MONTH then
    some ((val &&& OTHER_UNIT_MASK) * UNIT_FACTOR +
          ((val &&& MONTH_TENS_MASK) >>> TENS_SHIFT) * TENS_FACTOR)
  else if entry = DS1302_YEAR then
    some ((val &&& OTHER_UNIT_MASK) * UNIT_FACTOR +
          ((val &&& YEAR_TENS_MASK) >>> TENS_SHIFT) * TENS_FACTOR)
  else none

/-- Range minimum lookup, mirroring DS1302_get_range_minimum: an invalid
type hits ASSERT(false), modelled as none. -/
def DS1302_get_range_minimum (type : Nat) : Option Nat :=
  if is_get_range_type_valid type = false then none
  else Option.map DS1302_range_t.min (ranges type)

/-- Range maximum lookup, mirroring DS1302_get_range_maximum: an invalid
type, or the day-of-month type, hits ASSERT(false), modelled as none. -/
def DS1302_get_range_maximum (type : Nat) : Option Nat :=
  if is_get_range_type_valid type = false ∨ type = DS1302_DATE then none
  else Option.map DS1302_range_t.max (ranges type)

/-- Day-of-month maximum, mirroring DS1302_get_date_range_maximum: the
switch on month, with the default branch hitting ASSERT(false), modelled
as none. -/
def DS1302_get_date_range_maximum (year month : Nat) : Option Nat :=
  let is_leap := is_leap_year year
  if month = JANUARY ∨ month = MARCH ∨ month = MAY ∨ month = JULY ∨
     month = AUGUST ∨ month = OCTOBER ∨ month = DECEMBER then
    some DAYS_31
  else if month = APRIL ∨ month = JUNE ∨ month = SEPTEMBER ∨
          month = NOVEMBER then
    some DAYS_30
  else if month = FEBRUARY then
    some (if is_leap then DAYS_29 else DAYS_28)
  else none

/- Bus transport layer.  Every GPIO or delay call of the source is
recorded as one event, so a function's effect is its event trace.  The
data channel below corresponds to GPIO_CHANNEL_RTC_IO in the source. -/

def GPIO_CHANNEL_RTC_CLK : Nat := 0

def GPIO_CHANNEL_RTC_DAT : Nat := 1

def GPIO_CHANNEL_RTC_CE : Nat := 2

def GPIO_OUTPUT_PUSH_PULL : Nat := 0

def GPIO_INPUT_FLOATING : Nat := 1

/-- One observable hardware effect: a pin-mode configuration, a level
written to a pin, a level sampled from a pin, or a microsecond delay. -/
inductive GpioEvent where
  | configPin : Nat → Nat → GpioEvent
  | writePin : Nat → Bool → GpioEvent
  | readPin : Nat → Bool → GpioEvent
  | delayUs : Nat → GpioEvent
deriving DecidableEq

/-- Byte shift-out, mirroring write_byte: configure the data line as
push-pull output, then for each of the 8 bits (LSB first) drive the data
line to the bit value, lower the clock, delay, raise the clock, delay,
and shift the working byte right. -/
def write_byte (data : Nat) : List GpioEvent :=
  ((List.range CHAR_BIT).foldl
    (fun acc _ =>
      let tmp := acc.2
      (acc.1 ++
        [GpioEvent.writePin GPIO_CHANNEL_RTC_DAT (tmp &&& 0x01 != 0),
         GpioEvent.writePin GPIO_CHANNEL_RTC_CLK false,
         GpioEvent.delayUs CLK_DELAY,
         GpioEvent.writePin GPIO_CHANNEL_RTC_CLK true,
         GpioEvent.delayUs CLK_DELAY],
       tmp >>> 1))
    ([GpioEvent.configPin GPIO_CHANNEL_RTC_DAT GPIO_OUTPUT_PUSH_PULL], data)).1

/-- Byte shift-in, mirroring read_byte: configure the data line as a
floating input, then 8 times raise the clock, delay, lower the clock,
delay, shift the accumulator right and, if the sampled line is high, set
its top bit.  The function sample gives the level of the data line at the
i-th call of GPIO_read_pin, abstracting the device. -/
def read_byte (sample : Nat → Bool) : List GpioEvent × Nat :=
  (List.range CHAR_BIT).foldl
    (fun acc i =>
      let trace := acc.1 ++
        [GpioEvent.writePin GPIO_CHANNEL_RTC_CLK true,
         GpioEvent.delayUs CLK_DELAY,
         GpioEvent.writePin GPIO_CHANNEL_RTC_CLK false,
         GpioEvent.delayUs CLK_DELAY,
         GpioEvent.readPin GPIO_CHANNEL_RTC_DAT (sample i)]
      let ret := acc.2 >>> 1
      (trace, if sample i then ret ||| (1 <<< MSB_SHIFT) else ret))
    ([GpioEvent.configPin GPIO_CHANNEL_RTC_DAT GPIO_INPUT_FLOATING], 0)

/-- Bus idle, mirroring stop: drive chip-enable and clock low. -/
def stop : List GpioEvent :=
  [GpioEvent.writePin GPIO_CHANNEL_RTC_CE false,
   GpioEvent.writePin GPIO_CHANNEL_RTC_CLK false]

/-- Transaction framing, mirroring reset: stop, then raise chip-enable. -/
def reset : List GpioEvent :=
  stop ++ [GpioEvent.writePin GPIO_CHANNEL_RTC_CE true]

/-- Transaction opening, mirroring start: reset, then shift the command
byte out. -/
def start (type : Nat) : List GpioEvent :=
  reset ++ write_byte type

/-- Register write transaction, mirroring write. -/
def write (reg value : Nat) : List GpioEvent :=
  start reg ++ write_byte value ++ stop

/-- Device model for a read transaction: the chip shifts the addressed
register byte out LSB first, so the i-th sampled level is bit i of the
byte the bus function assigns to the read address. -/
def device_sample (bus : Nat → Nat) (reg : Nat) : Nat → Bool :=
  fun i => (bus reg).testBit i

/-- Register read transaction, mirroring read: trace of the whole
transaction paired with the byte assembled by read_byte. -/
def read (bus : Nat → Nat) (reg : Nat) : List GpioEvent × Nat :=
  let rb := read_byte (device_sample bus reg)
  (start reg ++ rb.1 ++ stop, rb.2)

/-- Datetime aggregate, mirroring DS1302_datetime_t of the header. -/
structure DS1302_datetime_t where
  secs : Nat
  min : Nat
  hours : Nat
  weekday : Nat
  date : Nat
  month : Nat
  year : Nat
  is_12h_mode : Bool
  is_pm : Bool
deriving DecidableEq

/-- Hours byte composed by DS1302_set: the format flag, or-ed in 12h mode
with the AM/PM flag and the 12h-encoded hour, in 24h mode with the
24h-encoded hour.  Bool fields pass to the codec as 0 or 1, mirroring the
C bool-to-uint8 conversion. -/
def set_hours_value (is12 pm : Bool) (hours : Nat) : Nat :=
  let value := (get_value_to_store DS1302_FORMAT (if is12 then 1 else 0)).getD 0
  if is12 then
    value ||| (get_value_to_store DS1302_AM_PM (if pm then 1 else 0)).getD 0 |||
      (get_value_to_store DS1302_HOURS_12H hours).getD 0
  else
    value ||| (get_value_to_store DS1302_HOURS_24H hours).getD 0

/-- Aggregate write, mirroring DS1302_set: a null pointer is modelled as
none and produces no event; otherwise one write transaction per register
in source order.  Every codec call below uses a valid selector, so getD
never sees none. -/
def DS1302_set (config : Option DS1302_datetime_t) : List GpioEvent :=
  match config with
  | none => []
  | some c =>
      write WRITE_YEAR ((get_value_to_store DS1302_YEAR c.year).getD 0) ++
      write WRITE_MONTH ((get_value_to_store DS1302_MONTH c.month).getD 0) ++
      write WRITE_DATE ((get_value_to_store DS1302_DATE c.date).getD 0) ++
      write WRITE_WEEKDAY ((get_value_to_store DS1302_WEEKDAY c.weekday).getD 0) ++
      write WRITE_HOURS (set_hours_value c.is_12h_mode c.is_pm c.hours) ++
      write WRITE_MINUTES ((get_value_to_store DS1302_MINUTES c.min).getD 0) ++
      write WRITE_SECONDS ((get_value_to_store DS1302_SECONDS c.secs).getD 0)

/-- Aggregate read, mirroring DS1302_get: a null pointer is modelled as
none and produces no event and no result; otherwise one read transaction
per register in source order, decoding each byte.  The hours byte first
yields the format flag; in 12h mode the AM/PM flag and the 12h hour are
decoded, in 24h mode only the 24h hour, leaving is_pm as it was in the
prior aggregate (the C function does not touch that field then). -/
def DS1302_get (bus : Nat → Nat) (config : Option DS1302_datetime_t) :
    List GpioEvent × Option DS1302_datetime_t :=
  match config with
  | none => ([], none)
  | some c =>
      let ty := read bus READ_YEAR
      let tmo := read bus READ_MONTH
      let td := read bus READ_DATE
      let tw := read bus READ_WEEKDAY
      let th := read bus READ_HOURS
      let tmi := read bus READ_MINUTES
      let ts := read bus READ_SECONDS
      let value := th.2
      let is12 : Bool := (get_value_to_load DS1302_FORMAT value).getD 0 != 0
      let c1 : DS1302_datetime_t :=
        if is12 then
          { secs := (get_value_to_load DS1302_SECONDS ts.2).getD 0
            min := (get_value_to_load DS1302_MINUTES tmi.2).getD 0
            hours := (get_value_to_load DS1302_HOURS_12H value).getD 0
            weekday := (get_value_to_load DS1302_WEEKDAY tw.2).getD 0
            date := (get_value_to_load DS1302_DATE td.2).getD 0
            month := (get_value_to_load DS1302_MONTH tmo.2).getD 0
            year := (get_value_to_load DS1302_YEAR ty.2).getD 0
            is_12h_mode := is12
            is_pm := (get_value_to_load DS1302_AM_PM value).getD 0 != 0 }
        else
          { secs := (get_value_to_load DS1302_SECONDS ts.2).getD 0
            min := (get_value_to_load DS1302_MINUTES tmi.2).getD 0
            hours := (get_value_to_load DS1302_HOURS_24H value).getD 0
            weekday := (get_value_to_load DS1302_WEEKDAY tw.2).getD 0
            date := (get_value_to_load DS1302_DATE td.2).getD 0
            month := (get_value_to_load DS1302_MONTH tmo.2).getD 0
            year := (get_value_to_load DS1302_YEAR ty.2).getD 0
            is_12h_mode := is12
            is_pm := c.is_pm }
      (ty.1 ++ tmo.1 ++ td.1 ++ tw.1 ++ th.1 ++ tmi.1 ++ ts.1, some c1)

/-- Clock level observed at each sample of the data line: walks the
trace keeping the last level written to the clock channel (idle low at
the outset) and records that level at every data-line read event. -/
def clock_levels_at_samples : List GpioEvent → Bool → List Bool
  | [], _ => []
  | GpioEvent.writePin ch lvl :: rest, clk =>
      clock_levels_at_samples rest (if ch = GPIO_CHANNEL_RTC_CLK then lvl else clk)
  | GpioEvent.readPin ch _ :: rest, clk =>
      if ch = GPIO_CHANNEL_RTC_DAT then clk :: clock_levels_at_samples rest clk
      else clock_levels_at_samples rest clk
  | _ :: rest, clk => clock_levels_at_samples rest clk

/-- True when every sample of the data line in the trace happens while
the last written clock level is high. -/
def samples_while_clock_high (trace : List GpioEvent) : Bool :=
  (clock_levels_at_samples trace false).all (fun b => b)

/-- Indices past the end of the 8-entry range table have no entry. -/
theorem ranges_eq_none (t : Nat) (h : 8 ≤ t) : ranges t = none := by
  unfold ranges
  simp only [DS1302_SECONDS, DS1302_MINUTES, DS1302_HOURS_24H, DS1302_HOURS_12H,
    DS1302_WEEKDAY, DS1302_DATE, DS1302_MONTH, DS1302_YEAR]
  repeat' split
  all_goals first | rfl | (exfalso; omega)

/-- A read transaction returns exactly the byte the device shifts out. -/
theorem read_value_eq (bus : Nat → Nat) (reg : Nat) (h : bus reg < 256) :
    (read bus reg).2 = bus reg := by
  have key : ∀ c < 256, (read_byte (fun i => Nat.testBit c i)).2 = c := by decide
  exact key (bus reg) h

/-- C1: for every field with a declared range and every value v inside
that range, decoding the encoded value gives v back. -/
theorem C1_round_trip (type v : Nat) (r : DS1302_range_t)
    (hr : ranges type = some r) (hmin : r.min ≤ v) (hmax : v ≤ r.max) :
    (get_value_to_store type v).bind (get_value_to_load type) = some v := by
  have h8 : type < 8 := by
    by_contra hge
    push_neg at hge
    rw [ranges_eq_none type hge] at hr
    exact Option.noConfusion hr
  have hget : (ranges type).getD ⟨0, 0⟩ = r := by rw [hr]; rfl
  have key : ∀ t < 8, ∀ x < 100,
      ((ranges t).getD ⟨0, 0⟩).min ≤ x → x ≤ ((ranges t).getD ⟨0, 0⟩).max →
      (get_value_to_store t x).bind (get_value_to_load t) = some x := by decide
  have keymax : ∀ t < 8, ((ranges t).getD ⟨0, 0⟩).max ≤ 99 := by decide
  have hv100 : v < 100 := by
    have h1 := keymax type h8
    rw [hget] at h1
    omega
  exact key type h8 v hv100 (by rw [hget]; exact hmin) (by rw [hget]; exact hmax)

/-- Witness for C1 at the seconds field and v = 59. -/
theorem C1_round_trip_witness :
    (get_value_to_store DS1302_SECONDS 59).bind (get_value_to_load DS1302_SECONDS) =
      some 59 :=
  C1_round_trip DS1302_SECONDS 59 ⟨0, 59⟩ (by decide) (by decide) (by decide)

/-- C2: for every two-digit year and month 1-12, the day-of-month bound
is 31 or 30 per month, and for February 29 exactly under the two-digit
leap rule, else 28. -/
theorem C2_date_range_maximum (year month : Nat) (hy : year ≤ 99)
    (h1 : 1 ≤ month) (h2 : month ≤ 12) :
    DS1302_get_date_range_maximum year month =
      some (if month = 2 then
              (if year % 4 = 0 ∧ (year % 100 ≠ 0 ∨ year % 400 = 0) then 29 else 28)
            else if month = 4 ∨ month = 6 ∨ month = 9 ∨ month = 11 then 30
            else 31) := by
  have key : ∀ y < 100, ∀ m < 13, 1 ≤ m →
      DS1302_get_date_range_maximum y m =
        some (if m = 2 then
                (if y % 4 = 0 ∧ (y % 100 ≠ 0 ∨ y % 400 = 0) then 29 else 28)
              else if m = 4 ∨ m = 6 ∨ m = 9 ∨ m = 11 then 30
              else 31) := by decide
  exact key year (by omega) month (by omega) h1

/-- Witness for C2: February of years 01 and 00. -/
theorem C2_date_range_maximum_witness :
    DS1302_get_date_range_maximum 1 2 = some 28 ∧
    DS1302_get_date_range_maximum 0 2 = some 29 :=
  ⟨(C2_date_range_maximum 1 2 (by decide) (by decide) (by decide)).trans (by decide),
   (C2_date_range_maximum 0 2 (by decide) (by decide) (by decide)).trans (by decide)⟩

/-- C3 counterexample: with the data line held high, no sample taken by
read_byte happens while the last written clock level is high — the code
lowers the clock and delays before sampling, so the claimed
sample-while-clock-high ordering is false on this concrete input. -/
theorem C3_sample_clock_counterexample :
    samples_while_clock_high (read_byte (fun _ => true)).1 = false := by decide

/-- C3 amended: read_byte configures the data line as floating input and,
for each of the 8 bits least-significant first, raises the clock, delays,
lowers the clock, delays, and only then samples the data line (the last
written clock level at every sample is low), or-ing each sampled bit into
the correct position of the accumulating result. -/
theorem C3_read_byte_amended :
    ∀ b0 b1 b2 b3 b4 b5 b6 b7 : Bool,
      read_byte (fun i => List.getD [b0, b1, b2, b3, b4, b5, b6, b7] i false) =
        (GpioEvent.configPin GPIO_CHANNEL_RTC_DAT GPIO_INPUT_FLOATING ::
          (List.map (fun b =>
            [GpioEvent.writePin GPIO_CHANNEL_RTC_CLK true,
             GpioEvent.delayUs CLK_DELAY,
             GpioEvent.writePin GPIO_CHANNEL_RTC_CLK false,
             GpioEvent.delayUs CLK_DELAY,
             GpioEvent.readPin GPIO_CHANNEL_RTC_DAT b])
            [b0, b1, b2, b3, b4, b5, b6, b7]).flatten,
         b0.toNat + 2 * b1.toNat + 4 * b2.toNat + 8 * b3.toNat + 16 * b4.toNat +
           32 * b5.toNat + 64 * b6.toNat + 128 * b7.toNat) ∧
      (clock_levels_at_samples
          (read_byte (fun i => List.getD [b0, b1, b2, b3, b4, b5, b6, b7] i false)).1
          false).all (fun b => !b) = true := by
  decide

/-- C4: for every 24-hour value 0-23 the stored hours byte is the BCD
packing with units mask 0x0F and tens mask 0x30 at shift 4, and its top
bit is clear, leaving it free for the format flag. -/
theorem C4_hours_24h_encode (v : Nat) (h : v ≤ 23) :
    get_value_to_store DS1302_HOURS_24H v =
      some ((((v / 10) <<< 4) &&& 0x30) ||| (v % 10)) ∧
    Nat.testBit ((((v / 10) <<< 4) &&& 0x30) ||| (v % 10)) 7 = false := by
  have key : ∀ x < 24,
      get_value_to_store DS1302_HOURS_24H x =
        some ((((x / 10) <<< 4) &&& 0x30) ||| (x % 10)) ∧
      Nat.testBit ((((x / 10) <<< 4) &&& 0x30) ||| (x % 10)) 7 = false := by decide
  exact key v (by omega)

/-- Witness for C4 at v = 23. -/
theorem C4_hours_24h_encode_witness :
    get_value_to_store DS1302_HOURS_24H 23 =
      some ((((23 / 10) <<< 4) &&& 0x30) ||| (23 % 10)) ∧
    Nat.testBit ((((23 / 10) <<< 4) &&& 0x30) ||| (23 % 10)) 7 = false :=
  C4_hours_24h_encode 23 (by decide)

/-- C5: the hours byte DS1302_set composes for hours 11, 12h mode, PM is
0xB1 — format bit 7 set, AM/PM bit 5 set, units nibble 1, 12h tens bit 4
set — and DS1302_get on a device returning that byte for the hours
register decodes hours 11, 12h mode, PM. -/
theorem C5_hours_12h_pm_scenario :
    set_hours_value true true 11 = 0xB1 ∧
    Nat.testBit 0xB1 7 = true ∧
    Nat.testBit 0xB1 5 = true ∧
    0xB1 &&& 0x0F = 1 ∧
    Nat.testBit 0xB1 4 = true ∧
    Option.map (fun c => (c.hours, c.is_12h_mode, c.is_pm))
      (DS1302_get (fun reg => if reg = READ_HOURS then 0xB1 else 0)
        (some ⟨0, 0, 0, 0, 0, 0, 0, false, false⟩)).2 = some (11, true, true) := by
  decide

/-- C6: the range lookups return exactly the literal table bounds, and
for every recognized field whose maximum is defined the minimum does not
exceed the maximum. -/
theorem C6_range_table :
    DS1302_get_range_minimum DS1302_SECONDS = some 0 ∧
    DS1302_get_range_maximum DS1302_SECONDS = some 59 ∧
    DS1302_get_range_minimum DS1302_MINUTES = some 0 ∧
    DS1302_get_range_maximum DS1302_MINUTES = some 59 ∧
    DS1302_get_range_minimum DS1302_HOURS_24H = some 0 ∧
    DS1302_get_range_maximum DS1302_HOURS_24H = some 23 ∧
    DS1302_get_range_minimum DS1302_HOURS_12H = some 1 ∧
    DS1302_get_range_maximum DS1302_HOURS_12H = some 12 ∧
    DS1302_get_range_minimum DS1302_WEEKDAY = some 1 ∧
    DS1302_get_range_maximum DS1302_WEEKDAY = some 7 ∧
    DS1302_get_range_minimum DS1302_MONTH = some 1 ∧
    DS1302_get_range_maximum DS1302_MONTH = some 12 ∧
    DS1302_get_range_minimum DS1302_YEAR = some 0 ∧
    DS1302_get_range_maximum DS1302_YEAR = some 99 ∧
    DS1302_get_range_minimum DS1302_DATE = some 1 ∧
    (∀ t < 8, t ≠ DS1302_DATE →
      (DS1302_get_range_minimum t).getD 0 ≤ (DS1302_get_range_maximum t).getD 0) := by
  decide

/-- C7: an unrecognized field selector makes both range lookups take the
fatal assertion path, the maximum lookup also rejects the day-of-month
field, and a month outside 1-12 makes the calendar bound computation take
the fatal assertion path; none of them returns a value. -/
theorem C7_contract_violation (type year month : Nat)
    (h1 : is_get_range_type_valid type = false)
    (h2 : month = 0 ∨ 12 < month) :
    DS1302_get_range_minimum type = none ∧
    DS1302_get_range_maximum type = none ∧
    DS1302_get_range_maximum DS1302_DATE = none ∧
    DS1302_get_date_range_maximum year month = none := by
  refine ⟨?_, ?_, by decide, ?_⟩
  · simp [DS1302_get_range_minimum, h1]
  · simp [DS1302_get_range_maximum, h1]
  · unfold DS1302_get_date_range_maximum
    simp only [JANUARY, FEBRUARY, MARCH, APRIL, MAY, JUNE, JULY, AUGUST,
      SEPTEMBER, OCTOBER, NOVEMBER, DECEMBER]
    repeat' split
    all_goals first | rfl | (exfalso; omega)

/-- Witness for C7 at selector 10 and month 13. -/
theorem C7_contract_violation_witness :
    DS1302_get_range_minimum 10 = none ∧
    DS1302_get_range_maximum 10 = none ∧
    DS1302_get_range_maximum DS1302_DATE = none ∧
    DS1302_get_date_range_maximum 0 13 = none :=
  C7_contract_violation 10 0 13 (by decide) (Or.inr (by decide))

/-- C8: a null aggregate makes DS1302_get and DS1302_set produce no GPIO
or delay event at all and return normally, with no value written. -/
theorem C8_null_aggregate_noop (bus : Nat → Nat) :
    DS1302_get bus none = ([], none) ∧ DS1302_set none = [] :=
  ⟨rfl, rfl⟩

/-- C9: when the hours byte read from the device has its format bit
clear, DS1302_get assigns every aggregate field from the decoded register
bytes except is_pm, which keeps the value it held in the prior
aggregate. -/
theorem C9_get_24h_preserves_is_pm (bus : Nat → Nat) (c : DS1302_datetime_t)
    (h256 : bus READ_HOURS < 256)
    (h7 : Nat.testBit (bus READ_HOURS) 7 = false) :
    (DS1302_get bus (some c)).2 = some
      { secs := (get_value_to_load DS1302_SECONDS (read bus READ_SECONDS).2).getD 0
        min := (get_value_to_load DS1302_MINUTES (read bus READ_MINUTES).2).getD 0
        hours := (get_value_to_load DS1302_HOURS_24H (read bus READ_HOURS).2).getD 0
        weekday := (get_value_to_load DS1302_WEEKDAY (read bus READ_WEEKDAY).2).getD 0
        date := (get_value_to_load DS1302_DATE (read bus READ_DATE).2).getD 0
        month := (get_value_to_load DS1302_MONTH (read bus READ_MONTH).2).getD 0
        year := (get_value_to_load DS1302_YEAR (read bus READ_YEAR).2).getD 0
        is_12h_mode := false
        is_pm := c.is_pm } := by
  have hv : (read bus READ_HOURS).2 = bus READ_HOURS :=
    read_value_eq bus READ_HOURS h256
  have hfmt : (get_value_to_load DS1302_FORMAT (bus READ_HOURS)).getD 0 = 0 := by
    have key : ∀ x < 256, Nat.testBit x 7 = false →
        (get_value_to_load DS1302_FORMAT x).getD 0 = 0 := by decide
    exact key (bus READ_HOURS) h256 h7
  simp only [DS1302_get, hv, hfmt]
  simp

/-- Witness for C9: every register byte reads 0x25 (format bit clear);
the prior is_pm value true survives the call. -/
theorem C9_get_24h_preserves_is_pm_witness :
    (DS1302_get (fun _ => 0x25) (some ⟨0, 0, 0, 0, 0, 0, 0, false, true⟩)).2 =
      some ⟨25, 25, 25, 5, 25, 5, 25, false, true⟩ :=
  (C9_get_24h_preserves_is_pm (fun _ => 0x25) ⟨0, 0, 0, 0, 0, 0, 0, false, true⟩
    (by decide) (by decide)).trans (by decide)

/-- C10: the decoder performs no range validation — the seconds decoder
maps raw byte 0x7F to 85, above the declared seconds maximum 59, and the
weekday decoder maps raw byte 0x00 to 0, below the declared weekday
minimum 1. -/
theorem C10_decode_no_range_validation :
    get_value_to_load DS1302_SECONDS 0x7F = some 85 ∧
    Option.map DS1302_range_t.max (ranges DS1302_SECONDS) = some 59 ∧ 59 < 85 ∧
    get_value_to_load DS1302_WEEKDAY 0x00 = some 0 ∧
    Option.map DS1302_range_t.min (ranges DS1302_WEEKDAY) = some 1 ∧ 0 < 1 := by
  decide
